import Mathlib

/-!
Shallow embedding of the authorization, validation and request-handling layer of
the Atari-Files-Transfer backend (Python/Flask). Each definition mirrors one
Python function of the repository; machine-level concerns (JSON bodies, logging,
the actual AWS calls) are abstracted to the data the claims depend on, while
control flow, status codes and string computations follow the source.
-/

namespace AtariFT

/-- Identity claims carried by a JWT, as built in
AuthService.generate_tokens (auth_service.py, lines 158-163):
a dict with keys username, role, email. -/
structure Identity where
  username : String
  role : String
  email : String
deriving Repr, DecidableEq

/-- Outcome of flask_jwt_extended.verify_jwt_in_request for one request:
either verification succeeds and get_jwt_identity yields the token identity,
or verification succeeds but the identity claim is falsy, or verification
raises (no token, expired token, malformed/invalid-signature token). -/
inductive TokenCheck where
  | verified (identity : Identity)
  | verifiedEmpty
  | missing
  | expired
  | malformed
deriving Repr, DecidableEq

/-- Observable outcome of one request: the HTTP status code returned, and
whether the backing remote operation (S3 call, user deletion, token issuance)
was actually invoked while handling it. -/
structure EndpointResult where
  status : Nat
  serviceCalled : Bool
deriving Repr, DecidableEq

/-- Role-permission table of AuthService.has_permission
(auth_service.py, lines 248-255): permissions_map with the two non-admin
roles; any other role maps to the empty list (dict.get default). -/
def permissionsMap (role : String) : List String :=
  if role = "user" then
    ["list_files", "upload_file", "download_file", "delete_own_file"]
  else if role = "readonly" then
    ["list_files", "download_file"]
  else
    []

/-- AuthService.has_permission (auth_service.py, lines 229-267): admin is
granted every permission; otherwise membership in the role permission list.
The identity dict always carries a role key, so the dict.get default is
not exercised. -/
def has_permission (user : Identity) (permission : String) : Bool :=
  if user.role = "admin" then
    true
  else
    (permissionsMap user.role).contains permission

/-- jwt_required_custom (middleware/auth.py, lines 14-29): runs the wrapped
handler when token verification succeeds; any verification exception is
caught and answered with 401. The wrapped handler result is passed as a
value since the decorator does not inspect the identity. -/
def jwt_required_custom (tc : TokenCheck) (handler : EndpointResult) : EndpointResult :=
  match tc with
  | .verified _ => handler
  | .verifiedEmpty => handler
  | .missing => ⟨401, false⟩
  | .expired => ⟨401, false⟩
  | .malformed => ⟨401, false⟩

/-- permission_required (middleware/auth.py, lines 31-66): verification
exceptions are caught by the blanket except and answered with 500; a falsy
identity gives 401; a failed has_permission check gives 403; otherwise the
handler runs with the token identity. -/
def permission_required (permission : String) (tc : TokenCheck)
    (handler : Identity → EndpointResult) : EndpointResult :=
  match tc with
  | .verified i =>
      if has_permission i permission then handler i else ⟨403, false⟩
  | .verifiedEmpty => ⟨401, false⟩
  | .missing => ⟨500, false⟩
  | .expired => ⟨500, false⟩
  | .malformed => ⟨500, false⟩

/-- admin_required (middleware/auth.py, lines 68-102): same shape as
permission_required, with the check role == "admin" in place of the
permission lookup. -/
def admin_required (tc : TokenCheck)
    (handler : Identity → EndpointResult) : EndpointResult :=
  match tc with
  | .verified i =>
      if i.role = "admin" then handler i else ⟨403, false⟩
  | .verifiedEmpty => ⟨401, false⟩
  | .missing => ⟨500, false⟩
  | .expired => ⟨500, false⟩
  | .malformed => ⟨500, false⟩

/-- The flask_jwt_extended jwt_required decorator as configured in this app:
the JWTManager bound to the app in initialize_extensions (app/init, line 111)
keeps the library default callbacks, which answer a missing token with 401,
an expired token with 401 and an invalid or malformed token with 422. The
custom callbacks in register_error_handlers are attached to a second
JWTManager instance that is never bound to the app, so they never run. -/
def jwt_required_lib (tc : TokenCheck)
    (handler : Option Identity → EndpointResult) : EndpointResult :=
  match tc with
  | .verified i => handler (some i)
  | .verifiedEmpty => handler none
  | .missing => ⟨401, false⟩
  | .expired => ⟨401, false⟩
  | .malformed => ⟨422, false⟩

/-- Python str.startswith, on the underlying character lists. -/
def pyStartswith (s pat : String) : Bool :=
  pat.data.isPrefixOf s.data

/-- Python substring membership test (the in operator) on character lists:
some position of l starts with pat. -/
def containsSeq (pat l : List Char) : Bool :=
  (List.range (l.length + 1)).any (fun i => pat.isPrefixOf (l.drop i))

/-- Python substring membership test (the in operator) on strings. -/
def pyIn (pat s : String) : Bool :=
  containsSeq pat.data s.data

/-- Python str.strip with no argument: remove leading and trailing
whitespace characters (ASCII fragment). -/
def pyStripWs (s : String) : String :=
  ⟨((s.data.dropWhile Char.isWhitespace).reverse.dropWhile Char.isWhitespace).reverse⟩

/-- Python str.strip with a one-character argument: remove leading and
trailing occurrences of that character. -/
def pyStripChar (c : Char) (s : String) : String :=
  ⟨((s.data.dropWhile (fun a => a == c)).reverse.dropWhile (fun a => a == c)).reverse⟩

/-- Python s.replace(c, two quote marks), i.e. deletion of every occurrence
of the character c, on character lists. -/
def pyReplaceDel (c : Char) (l : List Char) : List Char :=
  l.filter (fun a => a != c)

/-- Python str.isalnum on the ASCII fragment the repository uses: nonempty
and every character alphanumeric. -/
def pyIsalnumL (l : List Char) : Bool :=
  !l.isEmpty && l.all Char.isAlphanum

/-- Python truthiness of an optional string field: None and the empty
string are falsy. -/
def pyTruthy : Option String → Bool
  | none => false
  | some s => s ≠ ""

/-- S3UploadRequest (models/s3.py, lines 80-116). fileSize is a Python int. -/
structure S3UploadRequest where
  fileName : String
  fileSize : Int
  contentType : String
  folder : Option String
deriving Repr, DecidableEq

/-- S3UploadRequest.validate (models/s3.py, lines 88-109): the list of
collected error messages, in source order; the method raises ValueError
exactly when this list is nonempty. -/
def uploadValidateErrors (r : S3UploadRequest) (max_size : Int) : List String :=
  (if r.fileName = "" ∨ pyStripWs r.fileName = "" then ["File name is required"] else []) ++
  (if r.fileSize ≤ 0 then ["File size must be greater than 0"] else []) ++
  (if r.fileSize > max_size then ["File size exceeds maximum allowed size"] else []) ++
  (if r.contentType = "" then ["Content type is required"] else []) ++
  (if pyIn ".." r.fileName ∨ pyIn "/" r.fileName then ["Invalid file name"] else [])

/-- S3UploadRequest.s3_key (models/s3.py, lines 111-116): folder stripped of
leading and trailing slashes joined with the file name when the folder field
is truthy, else the bare file name. -/
def S3UploadRequest.s3_key (r : S3UploadRequest) : String :=
  match r.folder with
  | some f => if f ≠ "" then pyStripChar '/' f ++ "/" ++ r.fileName else r.fileName
  | none => r.fileName

/-- S3ListRequest (models/s3.py, lines 118-134); the prefix field is named
pfx here. maxKeys is a Python int. -/
structure S3ListRequest where
  pfx : Option String
  delimiter : String
  maxKeys : Int
  continuationToken : Option String
deriving Repr, DecidableEq

/-- S3ListRequest.validate (models/s3.py, lines 126-134): raises ValueError
exactly when maxKeys is outside 1..1000. -/
def listRequestValidate (r : S3ListRequest) : Except String Unit :=
  if r.maxKeys ≤ 0 ∨ r.maxKeys > 1000 then
    .error "Max keys must be between 1 and 1000"
  else
    .ok ()

/-- S3Service.list_objects (s3_service.py, lines 66-93): validates the
request, then performs the remote list_objects_v2 call. The remote outcome
is abstracted as a parameter of type α; a validation failure is returned
before the remote call, so the result is then independent of it. -/
def list_objects {α : Type} (r : S3ListRequest) (remote : α) : Except String α :=
  match listRequestValidate r with
  | .error e => .error e
  | .ok _ => .ok remote

/-- S3CreateFolderRequest (models/s3.py, lines 136-164). -/
structure S3CreateFolderRequest where
  folderName : String
  parentFolder : Option String
deriving Repr, DecidableEq

/-- S3CreateFolderRequest.validate (models/s3.py, lines 142-157): the list
of collected error messages, in source order; ValueError is raised exactly
when this list is nonempty. The second check deletes hyphens then
underscores and applies str.isalnum to the remainder. -/
def createFolderValidateErrors (name : String) : List String :=
  (if name = "" ∨ pyStripWs name = "" then ["Folder name is required"] else []) ++
  (if !pyIsalnumL (pyReplaceDel '_' (pyReplaceDel '-' name.data)) then
    ["Folder name can only contain letters, numbers, hyphens, and underscores"] else []) ++
  (if pyIn ".." name ∨ pyIn "/" name then ["Invalid folder name"] else [])

/-- Whether S3CreateFolderRequest.validate returns without raising. -/
def createFolderValidateOk (name : String) : Bool :=
  createFolderValidateErrors name = []

/-- S3CreateFolderRequest.s3_key (models/s3.py, lines 159-164): parent
folder stripped of slashes prepended when truthy, and a trailing slash. -/
def S3CreateFolderRequest.s3_key (r : S3CreateFolderRequest) : String :=
  if pyTruthy r.parentFolder then
    pyStripChar '/' (r.parentFolder.getD "") ++ "/" ++ r.folderName ++ "/"
  else
    r.folderName ++ "/"

/-- One S3 put_object call as issued by S3Service.create_folder
(s3_service.py, lines 247-252): key, empty body, directory content type. -/
structure PutObjectCall where
  key : String
  body : List UInt8
  contentType : String
deriving Repr, DecidableEq

/-- S3Service.create_folder (s3_service.py, lines 231-263): validates the
request, then issues the zero-byte folder marker put_object call. -/
def create_folder (r : S3CreateFolderRequest) : Except String PutObjectCall :=
  match createFolderValidateErrors r.folderName with
  | [] => .ok ⟨r.s3_key, [], "application/x-directory"⟩
  | e :: _ => .error e

/-- Handler body of delete_object (s3_controller.py, lines 198-231): a
non-admin identity may only delete keys starting with its username followed
by a slash, otherwise 403; svcOk abstracts the s3_service.delete_object
outcome (200 on success, 500 otherwise). -/
def delete_object_handler (i : Identity) (objectKey : String) (svcOk : Bool) : EndpointResult :=
  if i.role ≠ "admin" ∧ ¬ pyStartswith objectKey (i.username ++ "/") then
    ⟨403, false⟩
  else if svcOk then ⟨200, true⟩ else ⟨500, true⟩

/-- DELETE /api/delete/(object_key) (s3_controller.py, lines 196-231): the
permission_required gate for delete_file composed with the handler body. -/
def delete_endpoint (tc : TokenCheck) (objectKey : String) (svcOk : Bool) : EndpointResult :=
  permission_required "delete_file" tc (fun i => delete_object_handler i objectKey svcOk)

/-- Handler body of move_object (s3_controller.py, lines 282-332): missing
keys give 400; a non-admin identity needs both source and destination under
its own username prefix, otherwise 403; svcOk abstracts
s3_service.move_object. -/
def move_object_handler (i : Identity) (sourceKey destinationKey : String)
    (svcOk : Bool) : EndpointResult :=
  if sourceKey = "" ∨ destinationKey = "" then
    ⟨400, false⟩
  else if i.role ≠ "admin" ∧
      (¬ pyStartswith sourceKey (i.username ++ "/") ∨
       ¬ pyStartswith destinationKey (i.username ++ "/")) then
    ⟨403, false⟩
  else if svcOk then ⟨200, true⟩ else ⟨500, true⟩

/-- POST /api/move (s3_controller.py, lines 280-332): the
permission_required gate for move_file composed with the handler body. -/
def move_endpoint (tc : TokenCheck) (sourceKey destinationKey : String)
    (svcOk : Bool) : EndpointResult :=
  permission_required "move_file" tc
    (fun i => move_object_handler i sourceKey destinationKey svcOk)

/-- Handler body of create_folder (s3_controller.py, lines 235-278): a
validation failure from the request model is caught as ValueError and
answered with 400; svcOk abstracts the put_object call (201 on success,
500 on an s3 exception). -/
def create_folder_handler (req : S3CreateFolderRequest) (svcOk : Bool) : EndpointResult :=
  match create_folder req with
  | .error _ => ⟨400, false⟩
  | .ok _ => if svcOk then ⟨201, true⟩ else ⟨500, true⟩

/-- POST /api/create-folder (s3_controller.py, lines 233-278): the
permission_required gate for create_folder composed with the handler. -/
def create_folder_endpoint (tc : TokenCheck) (req : S3CreateFolderRequest)
    (svcOk : Bool) : EndpointResult :=
  permission_required "create_folder" tc (fun _ => create_folder_handler req svcOk)

/-- Handler body of delete_user (user_controller.py, lines 182-213): a
request naming the callers own username is answered with 400 before
user_service.delete_user is invoked; svcOk abstracts that call. -/
def delete_user_handler (i : Identity) (username : String) (svcOk : Bool) : EndpointResult :=
  if i.username = username then
    ⟨400, false⟩
  else if svcOk then ⟨200, true⟩ else ⟨500, true⟩

/-- DELETE /api/delete-user/(username) (user_controller.py, lines 180-213):
the admin_required gate composed with the handler body. -/
def delete_user_endpoint (tc : TokenCheck) (username : String) (svcOk : Bool) : EndpointResult :=
  admin_required tc (fun i => delete_user_handler i username svcOk)

/-- Result of a Python call: a value or a raised exception, identified by
the exception class name. -/
inductive PyResult (α : Type) where
  | ok (a : α)
  | exn (name : String)
deriving Repr, DecidableEq

/-- AuthService.refresh_access_token (auth_service.py, lines 189-210):
besides self, the method accepts exactly one parameter, current_user, and
returns a new access token for it; token creation is abstracted by mkTok. -/
def refresh_access_token (current_user : Identity) (mkTok : Identity → String) : String :=
  mkTok current_user

/-- The call expression auth_service.refresh_access_token(username, role,
email) at auth_controller.py line 92: three positional arguments are passed
to the one-parameter method refresh_access_token, so Python raises
TypeError before the method body runs. -/
def refresh_access_token_call3 (_arg1 : Identity) (_arg2 _arg3 : String) : PyResult String :=
  .exn "TypeError"

/-- Handler body of refresh (auth_controller.py, lines 73-107): a falsy
identity gives 401; otherwise the three-argument service call is made and
its TypeError is caught by the blanket except, giving 500. The identity
stored in a refresh token is the claims dict, and the role and email read
from get_jwt are passed through as the second and third argument. -/
def refresh_handler (ident : Option Identity) (claimsRole claimsEmail : String) : EndpointResult :=
  match ident with
  | none => ⟨401, false⟩
  | some u =>
      match refresh_access_token_call3 u claimsRole claimsEmail with
      | .ok _ => ⟨200, true⟩
      | .exn _ => ⟨500, false⟩

/-- POST /api/auth/refresh (auth_controller.py, lines 71-107): the library
jwt_required decorator (refresh variant) composed with the handler body. -/
def refresh_endpoint (tc : TokenCheck) (claimsRole claimsEmail : String) : EndpointResult :=
  jwt_required_lib tc (fun ident => refresh_handler ident claimsRole claimsEmail)

/-- One statement block of the generated per-user policy
(user_service.py, lines 296-316): effect, action list, resource ARN, and
the optional StringLike condition value for the s3 prefix key. -/
structure PolicyStatement where
  effect : String
  actions : List String
  resource : String
  listCondition : Option String
deriving Repr, DecidableEq

/-- The object-access statement built for one folder
(user_service.py, lines 297-305). -/
def objectStatement (bucket folder : String) : PolicyStatement :=
  ⟨"Allow", ["s3:GetObject", "s3:PutObject", "s3:DeleteObject"],
    "arn:aws:s3:::" ++ bucket ++ "/" ++ folder ++ "/*", none⟩

/-- The list-bucket statement built for one folder
(user_service.py, lines 306-315). -/
def listStatement (bucket folder : String) : PolicyStatement :=
  ⟨"Allow", ["s3:ListBucket"], "arn:aws:s3:::" ++ bucket,
    some (folder ++ "/*")⟩

/-- The statement list accumulated by the loop of
UserService._generate_user_policy (user_service.py, lines 294-316): two
statements appended per folder, in order. -/
def policyStatements (bucket : String) : List String → List PolicyStatement
  | [] => []
  | f :: fs => objectStatement bucket f :: listStatement bucket f :: policyStatements bucket fs

/-- UserService._generate_user_policy (user_service.py, lines 281-323):
None for an empty allowed-folder list, otherwise the policy document; its
json serialization is abstracted to the Statement list, the Version field
being constant. -/
def generate_user_policy (bucket : String) (allowed_folders : List String) :
    Option (List PolicyStatement) :=
  if allowed_folders.isEmpty then
    none
  else
    some (policyStatements bucket allowed_folders)

/-- The character class named by the claim for folder names: letters,
digits, hyphens and underscores. -/
def allowedFolderChar (c : Char) : Bool :=
  c.isAlphanum || c == '-' || c == '_'

/-- Folder-name acceptance as the claim words it (for the refinement
comparison with createFolderValidateOk): nonempty and consisting only of
letters, digits, hyphens and underscores. -/
def specFolderNameOk (name : String) : Bool :=
  name ≠ "" && name.data.all allowedFolderChar

lemma has_permission_iff_mem (i : Identity) (p : String) :
    has_permission i p = true ↔
      (i.role = "admin" ∨
       (i.role = "user" ∧
          p ∈ ["list_files", "upload_file", "download_file", "delete_own_file"]) ∨
       (i.role = "readonly" ∧ p ∈ ["list_files", "download_file"])) := by
  by_cases h1 : i.role = "admin"
  · simp [has_permission, h1]
  · by_cases h2 : i.role = "user"
    · simp [has_permission, permissionsMap, h1, h2, List.contains, List.elem_iff]
    · by_cases h3 : i.role = "readonly"
      · simp [has_permission, permissionsMap, h1, h2, h3, List.contains, List.elem_iff]
      · simp [has_permission, permissionsMap, h1, h2, h3]

lemma has_permission_false_of_not_listed (i : Identity) (p : String)
    (hrole : i.role ≠ "admin")
    (h1 : p ∉ (["list_files", "upload_file", "download_file", "delete_own_file"] : List String))
    (h2 : p ∉ (["list_files", "download_file"] : List String)) :
    has_permission i p = false := by
  cases hb : has_permission i p with
  | false => rfl
  | true =>
      rcases (has_permission_iff_mem i p).mp hb with h | ⟨_, hm⟩ | ⟨_, hm⟩
      · exact absurd h hrole
      · exact absurd hm h1
      · exact absurd hm h2

/-- C1: has_permission grants everything to role admin, exactly the four
listed permissions to role user, exactly the two listed permissions to role
readonly (so readonly is never granted upload_file), and nothing to any
other role string. -/
theorem C1_has_permission_role_table :
    (∀ (i : Identity) (p : String),
      has_permission i p = true ↔
        (i.role = "admin" ∨
         (i.role = "user" ∧
            p ∈ ["list_files", "upload_file", "download_file", "delete_own_file"]) ∨
         (i.role = "readonly" ∧ p ∈ ["list_files", "download_file"]))) ∧
    (∀ u e, has_permission ⟨u, "readonly", e⟩ "upload_file" = false) := by
  refine ⟨has_permission_iff_mem, ?_⟩
  intro u e
  simp [has_permission, permissionsMap, List.contains]

/-- C2: for every authenticated non-admin identity, the delete and move
handlers apply the ownership check: the backing operation only runs when
the key (both keys, for move) starts with the username and a slash, and a
key outside the own prefix is answered with 403; non-admin bob deleting
alice/file.txt receives 403; admin identities never receive 403 from these
endpoints. -/
theorem C2_ownership_check :
    (∀ (i : Identity) (k : String) (svc : Bool), i.role ≠ "admin" →
        ((delete_endpoint (.verified i) k svc).serviceCalled = true →
            pyStartswith k (i.username ++ "/") = true) ∧
        (pyStartswith k (i.username ++ "/") = false →
            (delete_endpoint (.verified i) k svc).status = 403)) ∧
    (∀ (i : Identity) (sk dk : String) (svc : Bool), i.role ≠ "admin" →
        ((move_endpoint (.verified i) sk dk svc).serviceCalled = true →
            pyStartswith sk (i.username ++ "/") = true ∧
            pyStartswith dk (i.username ++ "/") = true) ∧
        ((pyStartswith sk (i.username ++ "/") = false ∨
          pyStartswith dk (i.username ++ "/") = false) →
            (move_endpoint (.verified i) sk dk svc).status = 403)) ∧
    ((delete_endpoint (.verified ⟨"bob", "user", ""⟩) "alice/file.txt" true).status = 403) ∧
    (∀ (i : Identity) (k : String) (svc : Bool), i.role = "admin" →
        (delete_endpoint (.verified i) k svc).status ≠ 403) ∧
    (∀ (i : Identity) (sk dk : String) (svc : Bool), i.role = "admin" →
        (move_endpoint (.verified i) sk dk svc).status ≠ 403) := by
  have hdel : ∀ (i : Identity) (k : String) (svc : Bool), i.role ≠ "admin" →
      delete_endpoint (.verified i) k svc = ⟨403, false⟩ := by
    intro i k svc hrole
    simp [delete_endpoint, permission_required,
      has_permission_false_of_not_listed i "delete_file" hrole (by decide) (by decide)]
  have hmov : ∀ (i : Identity) (sk dk : String) (svc : Bool), i.role ≠ "admin" →
      move_endpoint (.verified i) sk dk svc = ⟨403, false⟩ := by
    intro i sk dk svc hrole
    simp [move_endpoint, permission_required,
      has_permission_false_of_not_listed i "move_file" hrole (by decide) (by decide)]
  refine ⟨?_, ?_, ?_, ?_, ?_⟩
  · intro i k svc hrole
    rw [hdel i k svc hrole]
    exact ⟨fun h => absurd h (by simp), fun _ => rfl⟩
  · intro i sk dk svc hrole
    rw [hmov i sk dk svc hrole]
    exact ⟨fun h => absurd h (by simp), fun _ => rfl⟩
  · rw [hdel ⟨"bob", "user", ""⟩ "alice/file.txt" true (by decide)]
  · intro i k svc hrole
    simp [delete_endpoint, permission_required, has_permission, hrole,
      delete_object_handler]
    cases svc <;> simp
  · intro i sk dk svc hrole
    simp only [move_endpoint, permission_required, has_permission, hrole, if_pos]
    rw [move_object_handler]
    split
    · simp
    · rw [if_neg (by simp [hrole])]
      cases svc <;> simp

/-- C2 witness: the bob scenario instantiated through the theorem. -/
theorem C2_ownership_check_witness :
    (delete_endpoint (.verified ⟨"bob", "user", ""⟩) "alice/notes.txt" true).status = 403 :=
  (C2_ownership_check.1 ⟨"bob", "user", ""⟩ "alice/notes.txt" true (by decide)).2 (by decide)

/-- C9: delete, move and create-folder are gated on the permission names
delete_file, move_file and create_folder, which no non-admin role is
granted, so every such request by a non-admin identity is answered 403 at
the gate with no backing call, whatever the keys are - own-prefix keys
included. -/
theorem C9_nonadmin_gate_denies_mutations :
    ∀ (i : Identity), i.role ≠ "admin" →
      (∀ (k : String) (svc : Bool), delete_endpoint (.verified i) k svc = ⟨403, false⟩) ∧
      (∀ (sk dk : String) (svc : Bool),
        move_endpoint (.verified i) sk dk svc = ⟨403, false⟩) ∧
      (∀ (req : S3CreateFolderRequest) (svc : Bool),
        create_folder_endpoint (.verified i) req svc = ⟨403, false⟩) ∧
      has_permission i "delete_file" = false ∧
      has_permission i "move_file" = false ∧
      has_permission i "create_folder" = false := by
  intro i hrole
  have h1 := has_permission_false_of_not_listed i "delete_file" hrole (by decide) (by decide)
  have h2 := has_permission_false_of_not_listed i "move_file" hrole (by decide) (by decide)
  have h3 := has_permission_false_of_not_listed i "create_folder" hrole (by decide) (by decide)
  refine ⟨?_, ?_, ?_, h1, h2, h3⟩
  · intro k svc; simp [delete_endpoint, permission_required, h1]
  · intro sk dk svc; simp [move_endpoint, permission_required, h2]
  · intro req svc; simp [create_folder_endpoint, permission_required, h3]

/-- C9 witness: user bob is denied even on a key under the bob/ prefix. -/
theorem C9_nonadmin_gate_denies_mutations_witness :
    delete_endpoint (.verified ⟨"bob", "user", ""⟩) "bob/file.txt" true = ⟨403, false⟩ :=
  (C9_nonadmin_gate_denies_mutations ⟨"bob", "user", ""⟩ (by decide)).1 "bob/file.txt" true

/-- C4 counterexample: a non-admin identity deleting its own account is
stopped by the admin gate with 403, not the claimed 400. -/
theorem C4_counterexample_nonadmin_self_delete :
    (delete_user_endpoint (.verified ⟨"bob", "user", "b@atari.com"⟩) "bob" true).status = 403 ∧
    ¬ (delete_user_endpoint (.verified ⟨"bob", "user", "b@atari.com"⟩) "bob" true).status = 400 := by
  decide

/-- C4 amended: self-deletion returns 400 with no deletion performed for
admin identities, the only ones that reach the handler; every non-admin
identity receives 403 from the admin gate, also with no deletion. -/
theorem C4_amended_self_delete :
    ∀ (i : Identity) (svc : Bool),
      (i.role = "admin" →
        delete_user_endpoint (.verified i) i.username svc = ⟨400, false⟩) ∧
      (i.role ≠ "admin" → ∀ uname : String,
        delete_user_endpoint (.verified i) uname svc = ⟨403, false⟩) := by
  intro i svc
  constructor
  · intro hrole
    simp [delete_user_endpoint, admin_required, hrole, delete_user_handler]
  · intro hrole uname
    simp [delete_user_endpoint, admin_required, hrole]

/-- C4 witness: the admin self-deletion case instantiated. -/
theorem C4_amended_self_delete_witness :
    delete_user_endpoint (.verified ⟨"admin", "admin", "admin@atari.com"⟩) "admin" true
      = ⟨400, false⟩ :=
  (C4_amended_self_delete ⟨"admin", "admin", "admin@atari.com"⟩ true).1 rfl

/-- C3: the refresh endpoint can never answer 200. The handler passes three
positional arguments to the one-parameter service method
refresh_access_token, so every request that presents a valid unexpired
refresh token raises TypeError inside the handler and is answered 500 with
no token issued. -/
theorem C3_refresh_always_fails :
    (∀ (i : Identity) (claimsRole claimsEmail : String),
        refresh_endpoint (.verified i) claimsRole claimsEmail = ⟨500, false⟩) ∧
    (∀ (tc : TokenCheck) (claimsRole claimsEmail : String),
        ¬ (refresh_endpoint tc claimsRole claimsEmail).status = 200) := by
  constructor
  · intro i r e; rfl
  · intro tc r e
    cases tc <;>
      simp [refresh_endpoint, jwt_required_lib, refresh_handler, refresh_access_token_call3]

/-- C3 witness: a valid refresh token for user alice instantiated through
the theorem: the endpoint answers 500 and issues nothing. -/
theorem C3_refresh_always_fails_witness :
    refresh_endpoint (.verified ⟨"alice", "user", "alice@atari.com"⟩) "user" "alice@atari.com"
      = ⟨500, false⟩ :=
  C3_refresh_always_fails.1 ⟨"alice", "user", "alice@atari.com"⟩ "user" "alice@atari.com"

/-- C5 counterexample: a request with no token to the protected delete
endpoint is answered 500, not the claimed 401: the blanket except in
permission_required swallows the missing-token exception. -/
theorem C5_counterexample_missing_token_500 :
    (delete_endpoint .missing "alice/file.txt" true).status = 500 ∧
    ¬ (delete_endpoint .missing "alice/file.txt" true).status = 401 := by
  decide

/-- C5 amended: endpoints wrapped in jwt_required_custom answer 401 for
missing, expired and malformed tokens alike; endpoints wrapped in
permission_required or admin_required answer 500 for all three; only the
library jwt_required decorator (the refresh endpoint), through the library
default callbacks, answers missing with 401, expired with 401 and
malformed with 422 - the custom callbacks encoding that taxonomy are
registered on a JWTManager never bound to the app. -/
theorem C5_amended_decorator_statuses :
    ∀ (h : EndpointResult) (hid : Identity → EndpointResult)
      (hopt : Option Identity → EndpointResult) (perm : String),
      (jwt_required_custom .missing h = ⟨401, false⟩ ∧
       jwt_required_custom .expired h = ⟨401, false⟩ ∧
       jwt_required_custom .malformed h = ⟨401, false⟩) ∧
      (permission_required perm .missing hid = ⟨500, false⟩ ∧
       permission_required perm .expired hid = ⟨500, false⟩ ∧
       permission_required perm .malformed hid = ⟨500, false⟩) ∧
      (admin_required .missing hid = ⟨500, false⟩ ∧
       admin_required .expired hid = ⟨500, false⟩ ∧
       admin_required .malformed hid = ⟨500, false⟩) ∧
      (jwt_required_lib .missing hopt = ⟨401, false⟩ ∧
       jwt_required_lib .expired hopt = ⟨401, false⟩ ∧
       jwt_required_lib .malformed hopt = ⟨422, false⟩) := by
  intro h hid hopt perm
  exact ⟨⟨rfl, rfl, rfl⟩, ⟨rfl, rfl, rfl⟩, ⟨rfl, rfl, rfl⟩, rfl, rfl, rfl⟩

/-- C7: list-request validation succeeds exactly when 1 <= maxKeys <= 1000;
list_objects with maxKeys 0 or 1001 returns the validation error whatever
the remote would answer (so before any remote call), and maxKeys 1000
passes validation and proceeds to the remote call. -/
theorem C7_list_validation_bounds :
    (∀ r : S3ListRequest,
        listRequestValidate r = .ok () ↔ 1 ≤ r.maxKeys ∧ r.maxKeys ≤ 1000) ∧
    (∀ (r : S3ListRequest) (α : Type) (remote : α),
        r.maxKeys = 0 ∨ r.maxKeys = 1001 →
        list_objects r remote = .error "Max keys must be between 1 and 1000") ∧
    (∀ (r : S3ListRequest) (α : Type) (remote : α),
        r.maxKeys = 1000 → list_objects r remote = .ok remote) := by
  refine ⟨?_, ?_, ?_⟩
  · intro r
    rw [listRequestValidate]
    split
    · rename_i hc
      constructor
      · intro h; cases h
      · intro h; exfalso; omega
    · rename_i hc
      constructor
      · intro _; constructor <;> omega
      · intro _; rfl
  · intro r α remote h
    rcases h with h | h <;> simp [list_objects, listRequestValidate, h]
  · intro r α remote h
    simp [list_objects, listRequestValidate, h]

/-- C7 witness: the three boundary values instantiated. -/
theorem C7_list_validation_bounds_witness :
    list_objects ⟨none, "/", 0, none⟩ (42 : Nat)
        = .error "Max keys must be between 1 and 1000" ∧
    list_objects ⟨none, "/", 1001, none⟩ (42 : Nat)
        = .error "Max keys must be between 1 and 1000" ∧
    list_objects ⟨none, "/", 1000, none⟩ (42 : Nat) = .ok 42 :=
  ⟨C7_list_validation_bounds.2.1 ⟨none, "/", 0, none⟩ Nat 42 (Or.inl rfl),
   C7_list_validation_bounds.2.1 ⟨none, "/", 1001, none⟩ Nat 42 (Or.inr rfl),
   C7_list_validation_bounds.2.2 ⟨none, "/", 1000, none⟩ Nat 42 rfl⟩

lemma policyStatements_length (b : String) (fs : List String) :
    (policyStatements b fs).length = 2 * fs.length := by
  induction fs with
  | nil => simp [policyStatements]
  | cons f t ih => simp [policyStatements, ih]; omega

lemma policyStatements_getElem (b : String) (fs : List String) (k : Nat) :
    (policyStatements b fs)[2 * k]? = (fs[k]?).map (objectStatement b) ∧
    (policyStatements b fs)[2 * k + 1]? = (fs[k]?).map (listStatement b) := by
  induction fs generalizing k with
  | nil => simp [policyStatements]
  | cons f t ih =>
      cases k with
      | zero => simp [policyStatements]
      | succ k =>
          have h1 : 2 * (k + 1) = (2 * k + 1) + 1 := by omega
          have h2 : 2 * (k + 1) + 1 = ((2 * k + 1) + 1) + 1 := by omega
          constructor
          · rw [h1, policyStatements]
            simp only [List.getElem?_cons_succ]
            exact (ih k).1
          · rw [h2, policyStatements]
            simp only [List.getElem?_cons_succ]
            exact (ih k).2

lemma policyStatements_mem (b f : String) (fs : List String) (h : f ∈ fs) :
    objectStatement b f ∈ policyStatements b fs ∧
    listStatement b f ∈ policyStatements b fs := by
  induction fs with
  | nil => cases h
  | cons g t ih =>
      rcases List.mem_cons.mp h with h | h
      · subst h; constructor <;> simp [policyStatements]
      · have := ih h
        constructor <;> simp [policyStatements, this.1, this.2]

/-- C6: an empty allowed-folder list yields no policy; a non-empty one
yields a Statement list holding, per folder, exactly two blocks in order:
the get/put/delete Allow on bucket/folder/* and the ListBucket Allow
conditioned on the folder/* prefix; the singleton list reports yields
exactly those two statements with the claimed ARN and condition. -/
theorem C6_generated_policy_shape :
    ∀ (bucket : String) (fs : List String),
      (generate_user_policy bucket [] = none) ∧
      (fs ≠ [] →
        ∃ stmts, generate_user_policy bucket fs = some stmts ∧
          stmts.length = 2 * fs.length ∧
          (∀ k : Nat,
            stmts[2 * k]? = (fs[k]?).map (objectStatement bucket) ∧
            stmts[2 * k + 1]? = (fs[k]?).map (listStatement bucket)) ∧
          (∀ f ∈ fs, objectStatement bucket f ∈ stmts ∧ listStatement bucket f ∈ stmts)) ∧
      (generate_user_policy bucket ["reports"] =
        some [objectStatement bucket "reports", listStatement bucket "reports"]) ∧
      ((objectStatement bucket "reports").effect = "Allow" ∧
       (objectStatement bucket "reports").actions
          = ["s3:GetObject", "s3:PutObject", "s3:DeleteObject"] ∧
       (objectStatement bucket "reports").resource
          = "arn:aws:s3:::" ++ bucket ++ "/reports/*" ∧
       (listStatement bucket "reports").effect = "Allow" ∧
       (listStatement bucket "reports").actions = ["s3:ListBucket"] ∧
       (listStatement bucket "reports").resource = "arn:aws:s3:::" ++ bucket ∧
       (listStatement bucket "reports").listCondition = some "reports/*") := by
  intro bucket fs
  refine ⟨rfl, ?_, ?_, ?_⟩
  · intro hfs
    refine ⟨policyStatements bucket fs, ?_, policyStatements_length bucket fs,
        policyStatements_getElem bucket fs, fun f hf => policyStatements_mem bucket f fs hf⟩
    simp [generate_user_policy, hfs]
  · rfl
  · refine ⟨rfl, rfl, ?_, rfl, rfl, rfl, rfl⟩
    rw [objectStatement]
    rw [String.append_assoc, String.append_assoc]
    rfl

/-- C6 witness: the reports scenario instantiated through the theorem. -/
theorem C6_generated_policy_shape_witness :
    ∃ stmts, generate_user_policy "atari-bucket" ["reports"] = some stmts ∧
      stmts.length = 2 * (["reports"] : List String).length ∧
      (∀ k : Nat,
        stmts[2 * k]? = ((["reports"] : List String)[k]?).map (objectStatement "atari-bucket") ∧
        stmts[2 * k + 1]? = ((["reports"] : List String)[k]?).map (listStatement "atari-bucket")) ∧
      (∀ f ∈ (["reports"] : List String),
        objectStatement "atari-bucket" f ∈ stmts ∧ listStatement "atari-bucket" f ∈ stmts) :=
  (C6_generated_policy_shape "atari-bucket" ["reports"]).2.1 (by decide)

lemma mem_dropWhile_of_mem {α : Type} {p : α → Bool} {l : List α} {c : α}
    (hc : c ∈ l) (hpc : p c = false) : c ∈ l.dropWhile p := by
  induction l with
  | nil => cases hc
  | cons a t ih =>
      rw [List.dropWhile_cons]
      split
      · rename_i ha
        rcases List.mem_cons.mp hc with h | h
        · subst h; rw [hpc] at ha; cases ha
        · exact ih h
      · exact hc

lemma pyStripWs_ne_empty {s : String} {c : Char} (hc : c ∈ s.data)
    (hw : c.isWhitespace = false) : pyStripWs s ≠ "" := by
  intro h
  have hdata : ((s.data.dropWhile Char.isWhitespace).reverse.dropWhile
      Char.isWhitespace).reverse = ([] : List Char) := congrArg String.data h
  have h1 : c ∈ s.data.dropWhile Char.isWhitespace := mem_dropWhile_of_mem hc hw
  have h2 : c ∈ (s.data.dropWhile Char.isWhitespace).reverse := List.mem_reverse.mpr h1
  have h3 : c ∈ (s.data.dropWhile Char.isWhitespace).reverse.dropWhile Char.isWhitespace :=
    mem_dropWhile_of_mem h2 hw
  have h4 : (s.data.dropWhile Char.isWhitespace).reverse.dropWhile Char.isWhitespace
      = ([] : List Char) := List.reverse_eq_nil_iff.mp hdata
  rw [h4] at h3
  cases h3

lemma containsSeq_eq_false_of_not_mem {c : Char} {rest l : List Char} (h : c ∉ l) :
    containsSeq (c :: rest) l = false := by
  cases hb : containsSeq (c :: rest) l with
  | false => rfl
  | true =>
      exfalso
      rw [containsSeq] at hb
      obtain ⟨i, _, hpre⟩ := List.any_eq_true.mp hb
      obtain ⟨t, ht⟩ := List.isPrefixOf_iff_prefix.mp hpre
      apply h
      apply List.mem_of_mem_drop (n := i)
      rw [← ht]
      simp

lemma char_ne_of_pred {p : Char → Bool} {c x : Char} (h : p c = true)
    (hx : p x = false) : c ≠ x := by
  intro he
  subst he
  rw [h] at hx
  cases hx

lemma alnum_not_ws {c : Char} (h : c.isAlphanum = true) : c.isWhitespace = false := by
  cases hw : c.isWhitespace with
  | false => rfl
  | true =>
      exfalso
      simp [Char.isWhitespace] at hw
      rcases hw with ((h1 | h1) | h1) | h1 <;> subst h1 <;> revert h <;> decide

/-- C8 counterexample: the name consisting of a single underscore is
nonempty and uses only allowed characters, yet validation rejects it: the
code strips hyphens and underscores first and Python isalnum is false on
the empty remainder. -/
theorem C8_counterexample_underscore :
    specFolderNameOk "_" = true ∧ createFolderValidateOk "_" = false := by
  decide

/-- C8 amended: folder-name validation accepts exactly the names that
contain at least one letter or digit and consist only of letters, digits,
hyphens and underscores; a/b still always fails and a-b_1 still always
passes; on success the zero-byte marker is put at name + slash, prefixed
with the stripped parent folder when one is given. -/
theorem C8_amended_folder_validation :
    (∀ name : String,
        createFolderValidateOk name = true ↔
          (name.data.any Char.isAlphanum = true ∧
           name.data.all allowedFolderChar = true)) ∧
    createFolderValidateOk "a/b" = false ∧
    createFolderValidateOk "a-b_1" = true ∧
    (∀ name : String, createFolderValidateOk name = true →
        create_folder ⟨name, none⟩ =
          .ok ⟨name ++ "/", [], "application/x-directory"⟩) ∧
    (∀ name parent : String, createFolderValidateOk name = true → parent ≠ "" →
        create_folder ⟨name, some parent⟩ =
          .ok ⟨pyStripChar '/' parent ++ "/" ++ name ++ "/", [], "application/x-directory"⟩) := by
  have hiff : ∀ name : String,
      createFolderValidateOk name = true ↔
        (name.data.any Char.isAlphanum = true ∧
         name.data.all allowedFolderChar = true) := by
    intro name
    constructor
    · intro h
      have herr : createFolderValidateErrors name = [] := of_decide_eq_true h
      rw [createFolderValidateErrors, List.append_eq_nil, List.append_eq_nil] at herr
      have hB := herr.1.2
      have hc2 : pyIsalnumL (pyReplaceDel '_' (pyReplaceDel '-' name.data)) = true := by
        cases hx : pyIsalnumL (pyReplaceDel '_' (pyReplaceDel '-' name.data)) with
        | true => rfl
        | false => rw [hx] at hB; simp at hB
      rw [pyIsalnumL, Bool.and_eq_true] at hc2
      obtain ⟨hne, hall⟩ := hc2
      have hne' : pyReplaceDel '_' (pyReplaceDel '-' name.data) ≠ [] := by
        simpa [List.isEmpty_eq_false] using hne
      constructor
      · obtain ⟨c, hc⟩ := List.exists_mem_of_ne_nil _ hne'
        have hcaln : c.isAlphanum = true := List.all_eq_true.mp hall c hc
        have hcmem : c ∈ name.data := (List.mem_filter.mp (List.mem_filter.mp hc).1).1
        exact List.any_eq_true.mpr ⟨c, hcmem, hcaln⟩
      · refine List.all_eq_true.mpr (fun a ha => ?_)
        cases hd : a == '-' with
        | true => simp [allowedFolderChar, hd]
        | false =>
            cases hu : a == '_' with
            | true => simp [allowedFolderChar, hu]
            | false =>
                have hin : a ∈ pyReplaceDel '_' (pyReplaceDel '-' name.data) :=
                  List.mem_filter.mpr
                    ⟨List.mem_filter.mpr ⟨ha, by simp [bne, hd]⟩, by simp [bne, hu]⟩
                have := List.all_eq_true.mp hall a hin
                simp [allowedFolderChar, this]
    · rintro ⟨hany, hall⟩
      obtain ⟨c, hcmem, hcaln⟩ := List.any_eq_true.mp hany
      have hname_ne : name ≠ "" := by
        intro h
        subst h
        exact (List.not_mem_nil c) hcmem
      have hstrip : pyStripWs name ≠ "" := pyStripWs_ne_empty hcmem (alnum_not_ws hcaln)
      have hcond1 : ¬ (name = "" ∨ pyStripWs name = "") := by
        rintro (h | h)
        · exact hname_ne h
        · exact hstrip h
      have hne1 : c ≠ '-' := char_ne_of_pred hcaln (by decide)
      have hne2 : c ≠ '_' := char_ne_of_pred hcaln (by decide)
      have hc_in : c ∈ pyReplaceDel '_' (pyReplaceDel '-' name.data) :=
        List.mem_filter.mpr
          ⟨List.mem_filter.mpr ⟨hcmem, bne_iff_ne.mpr hne1⟩, bne_iff_ne.mpr hne2⟩
      have hc2 : pyIsalnumL (pyReplaceDel '_' (pyReplaceDel '-' name.data)) = true := by
        rw [pyIsalnumL, Bool.and_eq_true]
        constructor
        · simp [List.isEmpty_eq_false]
          exact List.ne_nil_of_mem hc_in
        · refine List.all_eq_true.mpr (fun a ha => ?_)
          have h1 := List.mem_filter.mp ha
          have h2 := List.mem_filter.mp h1.1
          have hallow := List.all_eq_true.mp hall a h2.1
          rw [allowedFolderChar] at hallow
          have hd : (a == '-') = false := beq_eq_false_iff_ne.mpr (bne_iff_ne.mp h2.2)
          have hu : (a == '_') = false := beq_eq_false_iff_ne.mpr (bne_iff_ne.mp h1.2)
          rw [hd, hu] at hallow
          simpa using hallow
      have hdot : ('.' : Char) ∉ name.data := fun hm =>
        absurd (List.all_eq_true.mp hall '.' hm) (by decide)
      have hslash : ('/' : Char) ∉ name.data := fun hm =>
        absurd (List.all_eq_true.mp hall '/' hm) (by decide)
      have hin1 : pyIn ".." name = false := containsSeq_eq_false_of_not_mem hdot
      have hin2 : pyIn "/" name = false := containsSeq_eq_false_of_not_mem hslash
      simp [createFolderValidateOk, createFolderValidateErrors, hcond1, hc2, hin1, hin2]
  refine ⟨hiff, by decide, by decide, ?_, ?_⟩
  · intro name h
    have herr : createFolderValidateErrors name = [] := of_decide_eq_true h
    simp [create_folder, herr, S3CreateFolderRequest.s3_key, pyTruthy]
  · intro name parent h hp
    have herr : createFolderValidateErrors name = [] := of_decide_eq_true h
    simp [create_folder, herr, S3CreateFolderRequest.s3_key, pyTruthy, hp]

/-- C8 witness: the accepted example name a-b_1 instantiated through the
theorem, with its marker key. -/
theorem C8_amended_folder_validation_witness :
    create_folder ⟨"a-b_1", none⟩ =
      .ok ⟨"a-b_1" ++ "/", [], "application/x-directory"⟩ :=
  C8_amended_folder_validation.2.2.2.1 "a-b_1" (by decide)

/-- C10: upload validation rejects a file name containing a slash or a
dot-dot, but places no constraint on the folder field; the request with
file name f.txt and folder ../other passes validation and its upload key
../other/f.txt retains the traversal sequence. -/
theorem C10_upload_folder_unconstrained :
    (∀ (r : S3UploadRequest) (ms : Int),
        (pyIn "/" r.fileName = true ∨ pyIn ".." r.fileName = true) →
        "Invalid file name" ∈ uploadValidateErrors r ms) ∧
    (∀ (r : S3UploadRequest) (ms : Int) (f g : Option String),
        uploadValidateErrors { r with folder := f } ms =
        uploadValidateErrors { r with folder := g } ms) ∧
    (uploadValidateErrors ⟨"f.txt", 10, "text/plain", some "../other"⟩
        (100 * 1024 * 1024) = [] ∧
     S3UploadRequest.s3_key ⟨"f.txt", 10, "text/plain", some "../other"⟩ = "../other/f.txt" ∧
     pyIn ".." (S3UploadRequest.s3_key ⟨"f.txt", 10, "text/plain", some "../other"⟩) = true) := by
  refine ⟨?_, ?_, ?_, ?_, ?_⟩
  · intro r ms h
    have hE : (if pyIn ".." r.fileName ∨ pyIn "/" r.fileName
        then ["Invalid file name"] else []) = ["Invalid file name"] := by
      rcases h with h | h <;> simp [h]
    rw [uploadValidateErrors, hE]
    simp
  · intro r ms f g
    rfl
  · decide
  · decide
  · decide

/-- C10 witness: a file name holding a slash is rejected. -/
theorem C10_upload_folder_unconstrained_witness :
    "Invalid file name" ∈ uploadValidateErrors ⟨"a/b.txt", 10, "text/plain", none⟩ 100 :=
  C10_upload_folder_unconstrained.1 ⟨"a/b.txt", 10, "text/plain", none⟩ 100 (Or.inl (by decide))

end AtariFT
